import Mathlib

/-!
Verification of the loop-stop-gate hook (src/.claude-plugin/hooks/loop-stop-gate.py).

The hook is a single-shot decision gate: it reads a JSON payload from standard
input and two environment variables, optionally runs one version-control status
query, and terminates with either no output (ALLOW), a printed block payload
(BLOCK), or an uncaught exception. We embed the hook as a pure function from
these three inputs to a terminal outcome and prove the specified properties.
-/

namespace LoopStopGate

/-- Process environment: a partial map from variable names to values. -/
def Env : Type := String → Option String

/-- Embedding of get_env: os.environ.get with an explicit default. -/
def get_env (env : Env) (name dflt : String) : String :=
  (env name).getD dflt

/-- JSON values as produced by the json.load decoder of the hook. Numbers are
modelled as integers; only zero-ness matters to the hook (truthiness). -/
inductive JVal where
  | null : JVal
  | bool (b : Bool) : JVal
  | num (n : Int) : JVal
  | str (s : String) : JVal
  | arr (elems : List JVal) : JVal
  | obj (fields : List (String × JVal)) : JVal

/-- Truthiness of a parsed JSON value, as tested by an if statement in the
host language: None, False, 0, empty string, empty list and empty dict are
falsy, everything else is truthy. -/
def truthy : JVal → Bool
  | .null => false
  | .bool b => b
  | .num n => n != 0
  | .str s => s != ""
  | .arr elems => !elems.isEmpty
  | .obj fields => !fields.isEmpty

/-- Dictionary lookup on a decoded JSON object. The decoder keeps the last
binding when a key is repeated, so the lookup prefers later entries. -/
def jsonGet (fields : List (String × JVal)) (key : String) : Option JVal :=
  match fields with
  | [] => none
  | (k, v) :: rest =>
    match jsonGet rest key with
    | some w => some w
    | none => if k = key then some v else none

/-- Outcome of the one subprocess the hook may start: either the command ran
to completion with an exit code and captured standard output, or starting or
waiting for it raised TimeoutExpired or FileNotFoundError, whose text
representation is recorded. -/
inductive CmdOutcome where
  | completed (returncode : Int) (stdout : String) : CmdOutcome
  | failed (errText : String) : CmdOutcome

/-- Embedding of the str.strip() method: removes whitespace characters from
both ends of the string. -/
def pyStrip (s : String) : String :=
  ⟨((s.data.dropWhile Char.isWhitespace).reverse.dropWhile Char.isWhitespace).reverse⟩

/-- Embedding of run_command: on completion it returns whether the exit code
was zero together with the stripped standard output; on an exception it
returns False together with the text of the exception. -/
def run_command : CmdOutcome → Bool × String
  | .completed rc out => (rc == 0, pyStrip out)
  | .failed e => (false, e)

/-- Structured payload the hook prints on a block decision, before JSON
serialisation: a decision tag and a reason string. -/
structure BlockPayload where
  decision : String
  reason : String
deriving DecidableEq, Repr

/-- Terminal outcome of one invocation: exit 0 with no output, exit 0 after
printing a block payload, or an uncaught exception of the named kind. -/
inductive Verdict where
  | allow : Verdict
  | block (payload : BlockPayload) : Verdict
  | crash (excName : String) : Verdict
deriving DecidableEq, Repr

/-- Fixed text of the block prompt before the inserted status text. -/
def promptHead : String :=
  "## Loop Agent - Uncommitted Changes Detected\n\nYou have uncommitted changes:\n```\n"

/-- Fixed text of the block prompt between the status text and the progress
file name. -/
def promptMid : String :=
  "\n```\n\nBefore stopping, ensure:\n\n1. **Tests pass** - If this project has a test suite, run it now\n2. **Commit everything** - Including any updates to the progress file\n\n**Progress file:** Always APPEND to `.claude/loop-progress/"

/-- Fixed text of the block prompt after the progress file name. -/
def promptTail : String :=
  "` (never overwrite).\n\nOnce tests pass and all changes are committed, you may stop.\n"

/-- Name of the progress record referenced in the block prompt. -/
def progressFileName (session_name : String) : String :=
  "progress-" ++ session_name ++ ".txt"

/-- Embedding of the f-string prompt built by main when changes are found. -/
def promptText (git_status session_name : String) : String :=
  promptHead ++ git_status ++ promptMid ++ progressFileName session_name ++ promptTail

/-- Embedding of main. Inputs: the environment, the result of parsing the
standard input as JSON (none means json.load raised JSONDecodeError), and the
outcome of the git status subprocess had it been run. Follows the source
line by line: parse guard, activation check, re-entrancy check, status query,
clean check, block output. Calling .get on a decoded value that is not a
dictionary raises AttributeError, which main does not catch. -/
def gateMain (env : Env) (stdin : Option JVal) (git : CmdOutcome) : Verdict :=
  match stdin with
  | none => .allow
  | some input_data =>
    if get_env env "CLAUDE_PIPELINE_AGENT" "" = "" then .allow
    else
      match input_data with
      | .obj fields =>
        if truthy ((jsonGet fields "stop_hook_active").getD (.bool false)) then .allow
        else
          let session_name := get_env env "CLAUDE_PIPELINE_SESSION" "default"
          let git_status := (run_command git).2
          if git_status = "" then .allow
          else .block ⟨"block", promptText git_status session_name⟩
      | _ => .crash "AttributeError"

/-- Concrete environment with only the activation variable set, to "1". -/
def envAgentOn : Env :=
  fun n => if n = "CLAUDE_PIPELINE_AGENT" then some "1" else none

/-- Text representation of the FileNotFoundError raised when the git binary
is absent from PATH. -/
def fnfMessage : String :=
  "[Errno 2] No such file or directory: \x27git\x27"

/-- Concrete environment setting activation to "1" and the session name to
"alpha". -/
def envAgentSession : Env := fun n =>
  if n = "CLAUDE_PIPELINE_AGENT" then some "1"
  else if n = "CLAUDE_PIPELINE_SESSION" then some "alpha"
  else none

/-- Concrete environment setting the activation variable to "0". -/
def envZero : Env :=
  fun n => if n = "CLAUDE_PIPELINE_AGENT" then some "0" else none

/-- Concrete environment setting the activation variable to "false". -/
def envFalseStr : Env :=
  fun n => if n = "CLAUDE_PIPELINE_AGENT" then some "false" else none

/-- C1: evaluation of the embedding at the failing input. When the status
query raises FileNotFoundError (git absent from PATH), run_command returns
the non-empty exception text in the stdout slot and main, which discards the
success flag, treats it as uncommitted changes: the verdict is BLOCK with the
exception text embedded in the reason, not the fail-open ALLOW the
specification requires. -/
theorem claim_C1 :
    gateMain envAgentOn (some (JVal.obj [])) (CmdOutcome.failed fnfMessage)
      = Verdict.block ⟨"block", promptText fnfMessage "default"⟩ := rfl

/-- C2: if the activation environment variable is absent or empty, the
invocation exits with status 0 and no output, whatever the standard input
payload, the re-entrancy flag inside it, and the repository state. -/
theorem claim_C2 (env : Env) (stdin : Option JVal) (git : CmdOutcome)
    (hact : get_env env "CLAUDE_PIPELINE_AGENT" "" = "") :
    gateMain env stdin git = Verdict.allow := by
  cases stdin with
  | none => rfl
  | some v => simp [gateMain, hact]

/-- Witness for C2 at a concrete inactive environment, a payload carrying a
truthy re-entrancy flag, and a dirty repository. -/
theorem claim_C2_witness :
    gateMain (fun _ => none)
      (some (JVal.obj [("stop_hook_active", JVal.bool true)]))
      (CmdOutcome.completed 0 " M file.txt") = Verdict.allow :=
  claim_C2 (fun _ => none) _ _ rfl

/-- C3 counterexample: a standard input payload that is valid JSON but not an
object (here the empty array), with activation on, makes main call .get on a
list: an uncaught AttributeError propagates to the host, so the exit code is
not 0 and the outcome is neither ALLOW nor BLOCK. -/
theorem claim_C3_counterexample :
    gateMain envAgentOn (some (JVal.arr [])) (CmdOutcome.completed 0 "")
      = Verdict.crash "AttributeError" := rfl

/-- C3 amended: for every invocation whose standard input fails to parse as
JSON or parses to a JSON object, and also whenever activation is off, the
gate terminates with exit code 0 and ALLOW and BLOCK are the only terminal
outcomes. -/
theorem claim_C3 (env : Env) (stdin : Option JVal) (git : CmdOutcome)
    (h : (∀ v, stdin = some v → ∃ fields, v = JVal.obj fields)
        ∨ get_env env "CLAUDE_PIPELINE_AGENT" "" = "") :
    gateMain env stdin git = Verdict.allow
      ∨ ∃ p, gateMain env stdin git = Verdict.block p := by
  cases stdin with
  | none => exact Or.inl rfl
  | some v =>
    by_cases hact : get_env env "CLAUDE_PIPELINE_AGENT" "" = ""
    · exact Or.inl (by simp [gateMain, hact])
    · rcases h with h | h
      · obtain ⟨fields, rfl⟩ := h v rfl
        by_cases hflag :
            truthy ((jsonGet fields "stop_hook_active").getD (JVal.bool false)) = true
        · exact Or.inl (by simp [gateMain, hact, hflag])
        · by_cases hclean : (run_command git).2 = ""
          · exact Or.inl (by simp [gateMain, hact, hflag, hclean])
          · exact Or.inr
              ⟨⟨"block", promptText (run_command git).2
                  (get_env env "CLAUDE_PIPELINE_SESSION" "default")⟩,
                by simp [gateMain, hact, hflag, hclean]⟩
      · exact absurd h hact

/-- Witness for C3 at a concrete object payload with activation on and a
clean repository. -/
theorem claim_C3_witness :
    gateMain envAgentOn (some (JVal.obj [])) (CmdOutcome.completed 0 "") = Verdict.allow
      ∨ ∃ p, gateMain envAgentOn (some (JVal.obj [])) (CmdOutcome.completed 0 "")
          = Verdict.block p :=
  claim_C3 envAgentOn _ _
    (Or.inl (fun v hv => ⟨[], by injection hv with h; exact h.symm⟩))

/-- C4: when activation is on and the payload carries a true
stop_hook_active field, the verdict is ALLOW for every possible outcome of
the status query: the query result is never consulted, so the verdict does
not depend on the repository state. -/
theorem claim_C4 (env : Env) (fields : List (String × JVal)) (git : CmdOutcome)
    (hact : get_env env "CLAUDE_PIPELINE_AGENT" "" ≠ "")
    (hflag : jsonGet fields "stop_hook_active" = some (JVal.bool true)) :
    gateMain env (some (JVal.obj fields)) git = Verdict.allow := by
  simp [gateMain, hact, hflag, truthy]

/-- Witness for C4 at a concrete active environment, a true re-entrancy
flag, and a dirty repository. -/
theorem claim_C4_witness :
    gateMain envAgentOn (some (JVal.obj [("stop_hook_active", JVal.bool true)]))
      (CmdOutcome.completed 0 " M file.txt") = Verdict.allow :=
  claim_C4 envAgentOn _ _ (by decide) rfl

/-- C5: with activation on, the re-entrancy flag falsy, and the status query
completing successfully with non-empty stripped output, the verdict is BLOCK
with decision tag "block"; the reason text contains the stripped status text
verbatim and references the progress record progress-(sessionName).txt, and
the session name defaults to "default" when the session variable is unset. -/
theorem claim_C5 (env : Env) (fields : List (String × JVal)) (rc : Int) (out : String)
    (hact : get_env env "CLAUDE_PIPELINE_AGENT" "" ≠ "")
    (hflag : truthy ((jsonGet fields "stop_hook_active").getD (JVal.bool false)) = false)
    (_hrc : rc = 0) (hdirty : pyStrip out ≠ "") :
    gateMain env (some (JVal.obj fields)) (CmdOutcome.completed rc out)
        = Verdict.block ⟨"block",
            promptText (pyStrip out) (get_env env "CLAUDE_PIPELINE_SESSION" "default")⟩
      ∧ (∃ a b, promptText (pyStrip out) (get_env env "CLAUDE_PIPELINE_SESSION" "default")
            = a ++ pyStrip out ++ b)
      ∧ (∃ a b, promptText (pyStrip out) (get_env env "CLAUDE_PIPELINE_SESSION" "default")
            = a ++ progressFileName (get_env env "CLAUDE_PIPELINE_SESSION" "default") ++ b)
      ∧ (env "CLAUDE_PIPELINE_SESSION" = none
            → get_env env "CLAUDE_PIPELINE_SESSION" "default" = "default") := by
  refine ⟨?_,
    ⟨promptHead,
      promptMid ++ progressFileName (get_env env "CLAUDE_PIPELINE_SESSION" "default")
        ++ promptTail, ?_⟩,
    ⟨promptHead ++ pyStrip out ++ promptMid, promptTail, ?_⟩, ?_⟩
  · simp [gateMain, hact, hflag, run_command, hdirty]
  · simp [promptText, String.append_assoc]
  · simp [promptText, String.append_assoc]
  · intro h; simp [get_env, h]

/-- Witness for C5 at a concrete active environment with session "alpha", an
empty object payload, and a dirty repository listing " M file.txt". -/
theorem claim_C5_witness :
    gateMain envAgentSession (some (JVal.obj []))
        (CmdOutcome.completed 0 " M file.txt\n")
        = Verdict.block ⟨"block",
            promptText (pyStrip " M file.txt\n")
              (get_env envAgentSession "CLAUDE_PIPELINE_SESSION" "default")⟩
      ∧ (∃ a b, promptText (pyStrip " M file.txt\n")
              (get_env envAgentSession "CLAUDE_PIPELINE_SESSION" "default")
            = a ++ pyStrip " M file.txt\n" ++ b)
      ∧ (∃ a b, promptText (pyStrip " M file.txt\n")
              (get_env envAgentSession "CLAUDE_PIPELINE_SESSION" "default")
            = a ++ progressFileName
                (get_env envAgentSession "CLAUDE_PIPELINE_SESSION" "default") ++ b)
      ∧ (envAgentSession "CLAUDE_PIPELINE_SESSION" = none
            → get_env envAgentSession "CLAUDE_PIPELINE_SESSION" "default" = "default") :=
  claim_C5 envAgentSession [] 0 (" M file.txt\n") (by decide) rfl rfl (by decide)

/-- C6: with activation on, the re-entrancy flag falsy, and the status query
completing successfully with empty stripped output (clean working tree), the
gate exits with status 0 and writes no output. -/
theorem claim_C6 (env : Env) (fields : List (String × JVal)) (rc : Int) (out : String)
    (hact : get_env env "CLAUDE_PIPELINE_AGENT" "" ≠ "")
    (hflag : truthy ((jsonGet fields "stop_hook_active").getD (JVal.bool false)) = false)
    (_hrc : rc = 0) (hclean : pyStrip out = "") :
    gateMain env (some (JVal.obj fields)) (CmdOutcome.completed rc out)
      = Verdict.allow := by
  simp [gateMain, hact, hflag, run_command, hclean]

/-- Witness for C6 at a concrete active environment, a false re-entrancy
flag, and a clean repository. -/
theorem claim_C6_witness :
    gateMain envAgentOn (some (JVal.obj [("stop_hook_active", JVal.bool false)]))
      (CmdOutcome.completed 0 "") = Verdict.allow :=
  claim_C6 envAgentOn [("stop_hook_active", JVal.bool false)] 0 ""
    (by decide) rfl rfl rfl

/-- C7: the gate is deterministic in its three inputs: two invocations with
pointwise identical environments, identical parsed standard input, and
identical status query outcomes produce identical verdicts. -/
theorem claim_C7 (e1 e2 : Env) (s1 s2 : Option JVal) (g1 g2 : CmdOutcome)
    (henv : ∀ n, e1 n = e2 n) (hstdin : s1 = s2) (hgit : g1 = g2) :
    gateMain e1 s1 g1 = gateMain e2 s2 g2 := by
  subst hstdin
  subst hgit
  cases s1 with
  | none => rfl
  | some v => simp only [gateMain, get_env, henv]

/-- Witness for C7 at a concrete repeated invocation. -/
theorem claim_C7_witness :
    gateMain envAgentOn (some (JVal.obj [])) (CmdOutcome.completed 0 " M file.txt")
      = gateMain envAgentOn (some (JVal.obj [])) (CmdOutcome.completed 0 " M file.txt") :=
  claim_C7 envAgentOn envAgentOn _ _ _ _ (fun _ => rfl) rfl rfl

/-- C8: an unparseable standard input payload makes the gate exit with
status 0 and no output, for every environment and repository state: the
activation and re-entrancy checks and the status query never run. -/
theorem claim_C8 (env : Env) (git : CmdOutcome) :
    gateMain env none git = Verdict.allow := rfl

/-- C9: with activation on and the re-entrancy flag falsy, the verdict
depends only on the text the status command printed, never on its exit code:
the verdict is unchanged when the exit code changes, empty stripped output
yields ALLOW, and non-empty stripped output yields BLOCK whatever the exit
code. -/
theorem claim_C9 (env : Env) (fields : List (String × JVal)) (rc rc2 : Int) (out : String)
    (hact : get_env env "CLAUDE_PIPELINE_AGENT" "" ≠ "")
    (hflag : truthy ((jsonGet fields "stop_hook_active").getD (JVal.bool false)) = false) :
    gateMain env (some (JVal.obj fields)) (CmdOutcome.completed rc out)
        = gateMain env (some (JVal.obj fields)) (CmdOutcome.completed rc2 out)
      ∧ (pyStrip out = ""
          → gateMain env (some (JVal.obj fields)) (CmdOutcome.completed rc out)
              = Verdict.allow)
      ∧ (pyStrip out ≠ ""
          → gateMain env (some (JVal.obj fields)) (CmdOutcome.completed rc out)
              = Verdict.block ⟨"block",
                  promptText (pyStrip out) (get_env env "CLAUDE_PIPELINE_SESSION" "default")⟩) := by
  refine ⟨by simp [gateMain, run_command], ?_, ?_⟩
  · intro h; simp [gateMain, hact, hflag, run_command, h]
  · intro h; simp [gateMain, hact, hflag, run_command, h]

/-- Witness for C9 at a status command that exited with code 1 yet printed a
non-empty listing. -/
theorem claim_C9_witness :
    (gateMain envAgentOn (some (JVal.obj [])) (CmdOutcome.completed 1 " M file.txt")
        = gateMain envAgentOn (some (JVal.obj [])) (CmdOutcome.completed 0 " M file.txt"))
      ∧ (pyStrip " M file.txt" = ""
          → gateMain envAgentOn (some (JVal.obj [])) (CmdOutcome.completed 1 " M file.txt")
              = Verdict.allow)
      ∧ (pyStrip " M file.txt" ≠ ""
          → gateMain envAgentOn (some (JVal.obj [])) (CmdOutcome.completed 1 " M file.txt")
              = Verdict.block ⟨"block",
                  promptText (pyStrip " M file.txt")
                    (get_env envAgentOn "CLAUDE_PIPELINE_SESSION" "default")⟩) :=
  claim_C9 envAgentOn [] 1 0 " M file.txt" (by decide) rfl

/-- C10: activation is decided solely by non-emptiness of the agent-mode
variable: any two environments sharing the session variable whose activation
values are both empty-or-unset or both non-empty (for instance "0", "false"
and "1") are indistinguishable to the gate. -/
theorem claim_C10 (e1 e2 : Env) (stdin : Option JVal) (git : CmdOutcome)
    (hsess : e1 "CLAUDE_PIPELINE_SESSION" = e2 "CLAUDE_PIPELINE_SESSION")
    (hact : get_env e1 "CLAUDE_PIPELINE_AGENT" "" = ""
        ↔ get_env e2 "CLAUDE_PIPELINE_AGENT" "" = "") :
    gateMain e1 stdin git = gateMain e2 stdin git := by
  cases stdin with
  | none => rfl
  | some v =>
    have hS : get_env e1 "CLAUDE_PIPELINE_SESSION" "default"
        = get_env e2 "CLAUDE_PIPELINE_SESSION" "default" := by
      simp [get_env, hsess]
    by_cases h1 : get_env e1 "CLAUDE_PIPELINE_AGENT" "" = ""
    · have h2 := hact.mp h1
      simp [gateMain, h1, h2]
    · have h2 : ¬ get_env e2 "CLAUDE_PIPELINE_AGENT" "" = "" := fun h => h1 (hact.mpr h)
      simp [gateMain, h1, h2, hS]

/-- Witness for C10: the values "0" and "false", both falsy as strings in
many languages but non-empty here, give identical (active) behaviour. -/
theorem claim_C10_witness :
    gateMain envZero (some (JVal.obj [])) (CmdOutcome.completed 0 " M file.txt")
      = gateMain envFalseStr (some (JVal.obj [])) (CmdOutcome.completed 0 " M file.txt") :=
  claim_C10 envZero envFalseStr _ _ rfl (by decide)

end LoopStopGate
